import Mathlib

/-!
Verification of the tenant credit-deduction engine of the HRMS backend
(`excel_data/models/tenant.py`, `excel_data/credit_scheduler.py`,
`excel_data/middleware/credit_check_middleware.py`).

Dates are modelled as integers (day ordinals); the difference of two dates
in whole days is integer subtraction, matching Python's
`(today - last).days` on `date` objects.  Credits are Python ints, modelled
as `Int`; the database column is a PositiveIntegerField but the arithmetic
the code performs is plain integer arithmetic, so non-negativity is a
theorem, not a typing assumption.  The set of users belonging to the tenant
is modelled as a list of their `is_active` flags; the bulk
`update(is_active=...)` call sets every element.
-/

namespace HRMS

/-- The persisted ledger fields of `Tenant` that the credit engine touches:
`credits`, `is_active`, `last_credit_deducted` (IST date or NULL). -/
structure Tenant where
  credits : Int
  is_active : Bool
  last_credit_deducted : Option Int
deriving DecidableEq, Repr

/-- The slice of the database relevant to one tenant: its ledger row and the
`is_active` flags of its users (`CustomUser.objects.filter(tenant=...)`). -/
structure DBState where
  tenant : Tenant
  users : List Bool
deriving DecidableEq, Repr

/-- Python `self.last_credit_deducted and self.last_credit_deducted >= today_ist`:
`None` is falsy, a `date` object is always truthy. -/
def alreadyDeductedToday (last : Option Int) (today : Int) : Bool :=
  match last with
  | none => false
  | some d => decide (d ≥ today)

/-- `days_to_deduct` as computed in `deduct_daily_credit` lines 76-82:
1 on first-ever deduction, otherwise `(today_ist - last_credit_deducted).days`. -/
def days_to_deduct (last : Option Int) (today : Int) : Int :=
  match last with
  | none => 1
  | some d => today - d

/-- The part of `deduct_daily_credit` executed before the lock is taken
(lines 69-88), evaluated on the caller's possibly stale snapshot `snap`.
Returns `none` when the method exits early with `False` (already deducted
today, or no credits), otherwise `some days_to_deduct`. -/
def preLockPhase (snap : Tenant) (today : Int) : Option Int :=
  if alreadyDeductedToday snap.last_credit_deducted today then
    none
  else if snap.credits > 0 then
    some (days_to_deduct snap.last_credit_deducted today)
  else
    none

/-- The body of `with transaction.atomic()` (lines 90-120): re-read the row
under `select_for_update` (argument `db` is that fresh read), re-check the
already-deducted condition, then deduct `min(days_to_deduct, credits)`,
stamp `last_credit_deducted = today`, and deactivate the tenant and all its
users when credits hit zero.  Returns the Python return value and the
database state after the transaction. -/
def criticalSection (db : DBState) (days today : Int) : Bool × DBState :=
  if alreadyDeductedToday db.tenant.last_credit_deducted today then
    (false, db)
  else if db.tenant.credits > 0 ∧ days > 0 then
    let credits_to_deduct := min days db.tenant.credits
    let newCredits := db.tenant.credits - credits_to_deduct
    if newCredits = 0 then
      (true, ⟨⟨newCredits, false, some today⟩, db.users.map (fun _ => false)⟩)
    else
      (true, ⟨⟨newCredits, db.tenant.is_active, some today⟩, db.users⟩)
  else
    (false, db)

/-- `Tenant.deduct_daily_credit` run without interference: the caller's
snapshot and the locked re-read coincide with the database state `s`. -/
def deduct_daily_credit (s : DBState) (today : Int) : Bool × DBState :=
  match preLockPhase s.tenant today with
  | none => (false, s)
  | some days => criticalSection s days today

/-- `Tenant.add_credits` (lines 126-148): reject non-positive amounts,
otherwise add under the lock and reactivate the tenant and its users when a
previously inactive tenant ends up with positive credits.  The save updates
only `credits` and `is_active`; `last_credit_deducted` is untouched. -/
def add_credits (s : DBState) (amount : Int) : Bool × DBState :=
  if amount ≤ 0 then
    (false, s)
  else
    let was_inactive := !s.tenant.is_active
    let newCredits := s.tenant.credits + amount
    if was_inactive ∧ newCredits > 0 then
      (true, ⟨⟨newCredits, true, s.tenant.last_credit_deducted⟩,
              s.users.map (fun _ => true)⟩)
    else
      (true, ⟨⟨newCredits, s.tenant.is_active, s.tenant.last_credit_deducted⟩,
              s.users⟩)

/-- One mutating ledger operation, for reasoning about call sequences. -/
inductive Op where
  | deduct (today : Int)
  | addCredits (amount : Int)
deriving DecidableEq, Repr

/-- Apply one operation, keeping only the resulting database state. -/
def applyOp (s : DBState) : Op → DBState
  | Op.deduct today => (deduct_daily_credit s today).2
  | Op.addCredits amount => (add_credits s amount).2

/-- Apply a sequence of operations left to right. -/
def applyOps (s : DBState) (ops : List Op) : DBState :=
  ops.foldl applyOp s

/-- Two concurrent `deduct_daily_credit` calls for the same tenant on the
same date.  `select_for_update` serializes the two transactions; caller A's
critical section commits first.  A's snapshot is the initial state `s0`
(A sees no interference).  Caller B's snapshot is `s0` when B read the row
before A's commit (`staleB = true`) or A's post-commit state otherwise;
B's critical section always sees A's committed state,
`deduct_with_snapshot` separating the snapshot the pre-lock phase reads
from the locked state the critical section operates on. -/
def deduct_with_snapshot (snap db : DBState) (today : Int) :
    Bool × DBState :=
  match preLockPhase snap.tenant today with
  | none => (false, db)
  | some days => criticalSection db days today

/-- The interleaving of the two concurrent calls described above: caller
A's transaction commits first; `staleB` selects B's snapshot. -/
def twoConcurrentDeducts (s0 : DBState) (today : Int) (staleB : Bool) :
    Bool × Bool × DBState :=
  let a := deduct_daily_credit s0 today
  let b := deduct_with_snapshot (if staleB then s0 else a.2) a.2 today
  (a.1, b.1, b.2)

/-- The mutable state of `CreditScheduler`: `last_hourly_check` is an
instant (seconds), `last_midnight_check` an IST date. -/
structure SchedState where
  last_hourly_check : Option Int
  last_midnight_check : Option Int
deriving DecidableEq, Repr

/-- `CreditScheduler.should_run_midnight_check`: true when the current IST
time of day (seconds since midnight) lies in the closed window
`[00:00:00, 00:05:00]` and no midnight pass was recorded for `date` yet. -/
def should_run_midnight_check (st : SchedState) (tod date : Int) : Bool :=
  let is_midnight_window := decide (0 ≤ tod) && decide (tod ≤ 300)
  let already_ran_today :=
    match st.last_midnight_check with
    | none => false
    | some d => decide (d ≥ date)
  is_midnight_window && !already_ran_today

/-- `CreditScheduler.should_run_hourly_check`: true when never run, or at
least 3600 seconds have elapsed since `last_hourly_check`. -/
def should_run_hourly_check (st : SchedState) (now : Int) : Bool :=
  match st.last_hourly_check with
  | none => true
  | some t => decide (now - t ≥ 3600)

/-- What a scheduler tick did: which pass (if any) executed. -/
inductive TickAction where
  | midnight
  | hourly
  | idle
deriving DecidableEq, Repr

/-- One iteration of the `while self.running` loop in `CreditScheduler.run`
(lines 110-132): the midnight branch is tried first; the hourly branch is
an `elif`, so it is skipped whenever the midnight pass executes.  `tod` and
`date` are the IST time of day and date at the tick, `now` the instant. -/
def schedulerTick (st : SchedState) (tod date now : Int) :
    TickAction × SchedState :=
  if should_run_midnight_check st tod date then
    (TickAction.midnight, { st with last_midnight_check := some date })
  else if should_run_hourly_check st now then
    (TickAction.hourly, { st with last_hourly_check := some now })
  else
    (TickAction.idle, st)

/-- `CreditEnforcementMiddleware.EXEMPT_PATHS`. -/
def EXEMPT_PATHS : List String :=
  ["/admin/", "/api/auth/login/", "/api/auth/register/", "/api/auth/logout/",
   "/api/auth/password/", "/api/health/", "/static/", "/media/"]

/-- Python's `str.startswith`: `str_startswith s pre` is true when `pre` is
an initial segment of `s`.  Request paths are modelled as their character
lists. -/
def str_startswith : List Char → List Char → Bool
  | _, [] => true
  | [], _ :: _ => false
  | c :: s, p :: ps => c == p && str_startswith s ps

/-- The request attributes `CreditEnforcementMiddleware` consults. -/
structure Request where
  path : List Char
  is_authenticated : Bool
  has_tenant : Bool
deriving DecidableEq, Repr

/-- `CreditEnforcementMiddleware.process_request` (lines 92-125): skip
exempt paths, unauthenticated requests and requests without a tenant;
otherwise log a low-credit warning exactly when `credits <= 5 and
credits > 0`.  The Boolean result records whether the warning was logged;
the method only reads the ledger, so the state is returned as received. -/
def enforcement_process_request (req : Request) (s : DBState) :
    Bool × DBState :=
  if EXEMPT_PATHS.any (fun e => str_startswith req.path e.data) then
    (false, s)
  else if !req.is_authenticated then
    (false, s)
  else if !req.has_tenant then
    (false, s)
  else
    (decide (s.tenant.credits ≤ 5) && decide (s.tenant.credits > 0), s)

/-! ### Helper lemmas -/

lemma days_pos (last : Option Int) (today : Int)
    (h : alreadyDeductedToday last today = false) :
    days_to_deduct last today > 0 := by
  cases last with
  | none => simp [days_to_deduct]
  | some D =>
      simp only [alreadyDeductedToday, decide_eq_false_iff_not] at h
      simp only [days_to_deduct]
      omega

lemma preLockPhase_already (snap : Tenant) (today : Int)
    (h : alreadyDeductedToday snap.last_credit_deducted today = true) :
    preLockPhase snap today = none := by
  unfold preLockPhase
  rw [if_pos h]

lemma preLockPhase_nocredits (snap : Tenant) (today : Int)
    (h : ¬ snap.credits > 0) :
    preLockPhase snap today = none := by
  unfold preLockPhase
  split_ifs with h1
  · rfl
  · rfl

lemma preLockPhase_go (snap : Tenant) (today : Int)
    (h1 : alreadyDeductedToday snap.last_credit_deducted today = false)
    (h2 : snap.credits > 0) :
    preLockPhase snap today
      = some (days_to_deduct snap.last_credit_deducted today) := by
  unfold preLockPhase
  rw [if_neg (by simp [h1]), if_pos h2]

lemma criticalSection_already (db : DBState) (days today : Int)
    (h : alreadyDeductedToday db.tenant.last_credit_deducted today = true) :
    criticalSection db days today = (false, db) := by
  unfold criticalSection
  rw [if_pos h]

lemma criticalSection_skip (db : DBState) (days today : Int)
    (h : ¬(db.tenant.credits > 0 ∧ days > 0)) :
    criticalSection db days today = (false, db) := by
  unfold criticalSection
  by_cases h1 : alreadyDeductedToday db.tenant.last_credit_deducted today
      = true
  · rw [if_pos h1]
  · rw [if_neg h1, if_neg h]

lemma criticalSection_deduct_zero (db : DBState) (days today : Int)
    (h1 : alreadyDeductedToday db.tenant.last_credit_deducted today = false)
    (h2 : db.tenant.credits > 0) (h3 : days > 0)
    (hz : db.tenant.credits - min days db.tenant.credits = 0) :
    criticalSection db days today
      = (true, ⟨⟨0, false, some today⟩, db.users.map (fun _ => false)⟩) := by
  unfold criticalSection
  rw [if_neg (by simp [h1]), if_pos ⟨h2, h3⟩]
  simp only [hz, if_pos]

lemma criticalSection_deduct_pos (db : DBState) (days today : Int)
    (h1 : alreadyDeductedToday db.tenant.last_credit_deducted today = false)
    (h2 : db.tenant.credits > 0) (h3 : days > 0)
    (hz : db.tenant.credits - min days db.tenant.credits ≠ 0) :
    criticalSection db days today
      = (true, ⟨⟨db.tenant.credits - min days db.tenant.credits,
          db.tenant.is_active, some today⟩, db.users⟩) := by
  unfold criticalSection
  rw [if_neg (by simp [h1]), if_pos ⟨h2, h3⟩]
  exact if_neg hz

lemma criticalSection_deduct (db : DBState) (days today : Int)
    (h1 : alreadyDeductedToday db.tenant.last_credit_deducted today = false)
    (h2 : db.tenant.credits > 0) (h3 : days > 0) :
    (criticalSection db days today).1 = true ∧
    (criticalSection db days today).2.tenant.credits
      = db.tenant.credits - min days db.tenant.credits ∧
    (criticalSection db days today).2.tenant.last_credit_deducted
      = some today := by
  by_cases hz : db.tenant.credits - min days db.tenant.credits = 0
  · rw [criticalSection_deduct_zero db days today h1 h2 h3 hz]
    exact ⟨rfl, hz.symm, rfl⟩
  · rw [criticalSection_deduct_pos db days today h1 h2 h3 hz]
    exact ⟨rfl, rfl, rfl⟩

lemma criticalSection_false_eq (db : DBState) (days today : Int)
    (h : (criticalSection db days today).1 = false) :
    (criticalSection db days today).2 = db := by
  by_cases h1 : alreadyDeductedToday db.tenant.last_credit_deducted today
      = true
  · rw [criticalSection_already db days today h1]
  · by_cases h2 : db.tenant.credits > 0 ∧ days > 0
    · have := (criticalSection_deduct db days today
        (by simpa using h1) h2.1 h2.2).1
      rw [this] at h
      cases h
    · rw [criticalSection_skip db days today h2]

lemma deduct_eq (s : DBState) (today : Int) :
    deduct_daily_credit s today
      = match preLockPhase s.tenant today with
        | none => (false, s)
        | some days => criticalSection s days today := rfl

lemma deduct_already (s : DBState) (today : Int)
    (h : alreadyDeductedToday s.tenant.last_credit_deducted today = true) :
    deduct_daily_credit s today = (false, s) := by
  rw [deduct_eq, preLockPhase_already s.tenant today h]

lemma deduct_cases (s : DBState) (today : Int) :
    (deduct_daily_credit s today = (false, s) ∧
      preLockPhase s.tenant today = none) ∨
    ((deduct_daily_credit s today).1 = true ∧
      (deduct_daily_credit s today).2.tenant.last_credit_deducted
        = some today) := by
  by_cases h1 : alreadyDeductedToday s.tenant.last_credit_deducted today
      = true
  · exact Or.inl ⟨deduct_already s today h1,
      preLockPhase_already s.tenant today h1⟩
  · have h1f : alreadyDeductedToday s.tenant.last_credit_deducted today
        = false := by simpa using h1
    by_cases h2 : s.tenant.credits > 0
    · right
      have hp := preLockPhase_go s.tenant today h1f h2
      have hcs := criticalSection_deduct s _ today h1f h2
        (days_pos s.tenant.last_credit_deducted today h1f)
      rw [deduct_eq, hp]
      exact ⟨hcs.1, hcs.2.2⟩
    · left
      have hp := preLockPhase_nocredits s.tenant today h2
      rw [deduct_eq, hp]
      exact ⟨rfl, rfl⟩

lemma deduct_false_noop (s : DBState) (today : Int)
    (h : (deduct_daily_credit s today).1 = false) :
    (deduct_daily_credit s today).2 = s := by
  rcases deduct_cases s today with ⟨heq, _⟩ | ⟨ht, _⟩
  · rw [heq]
  · rw [ht] at h; cases h

lemma deduct_go (s : DBState) (today : Int)
    (h1 : alreadyDeductedToday s.tenant.last_credit_deducted today = false)
    (h2 : s.tenant.credits > 0) :
    deduct_daily_credit s today
      = criticalSection s
          (days_to_deduct s.tenant.last_credit_deducted today) today := by
  rw [deduct_eq, preLockPhase_go s.tenant today h1 h2]

lemma deduct_credits_cases (s : DBState) (today : Int) :
    (deduct_daily_credit s today).2.tenant.credits = s.tenant.credits ∨
    (deduct_daily_credit s today).2.tenant.credits
      = s.tenant.credits
        - min (days_to_deduct s.tenant.last_credit_deducted today)
            s.tenant.credits := by
  by_cases h1 : alreadyDeductedToday s.tenant.last_credit_deducted today
      = true
  · left
    rw [deduct_already s today h1]
  · have h1f : alreadyDeductedToday s.tenant.last_credit_deducted today
        = false := by simpa using h1
    by_cases h2 : s.tenant.credits > 0
    · right
      rw [deduct_go s today h1f h2]
      exact (criticalSection_deduct s _ today h1f h2
        (days_pos s.tenant.last_credit_deducted today h1f)).2.1
    · left
      rw [deduct_eq, preLockPhase_nocredits s.tenant today h2]

lemma add_credits_credits_cases (s : DBState) (amount : Int) :
    (add_credits s amount).2.tenant.credits = s.tenant.credits ∨
    ((add_credits s amount).2.tenant.credits = s.tenant.credits + amount
      ∧ 0 < amount) := by
  simp only [add_credits]
  split_ifs with h1 h2
  · left
    rfl
  · right
    exact ⟨rfl, by omega⟩
  · right
    exact ⟨rfl, by omega⟩

lemma applyOp_credits_nonneg (s : DBState) (op : Op)
    (h : 0 ≤ s.tenant.credits) : 0 ≤ (applyOp s op).tenant.credits := by
  cases op with
  | deduct today =>
      show 0 ≤ (deduct_daily_credit s today).2.tenant.credits
      rcases deduct_credits_cases s today with he | he
      · rw [he]
        exact h
      · rw [he]
        have := min_le_right
          (days_to_deduct s.tenant.last_credit_deducted today)
          s.tenant.credits
        omega
  | addCredits amount =>
      show 0 ≤ (add_credits s amount).2.tenant.credits
      rcases add_credits_credits_cases s amount with he | ⟨he, ha⟩
      · rw [he]
        exact h
      · rw [he]
        omega

lemma applyOps_credits_nonneg : ∀ (ops : List Op) (s : DBState),
    0 ≤ s.tenant.credits → 0 ≤ (applyOps s ops).tenant.credits := by
  intro ops
  induction ops with
  | nil => intro s h; exact h
  | cons op rest ih =>
      intro s h
      exact ih (applyOp s op) (applyOp_credits_nonneg s op h)

lemma add_credits_last_unchanged (s : DBState) (amount : Int) :
    (add_credits s amount).2.tenant.last_credit_deducted
      = s.tenant.last_credit_deducted := by
  simp only [add_credits]
  split_ifs <;> rfl

lemma deduct_last_cases (s : DBState) (today : Int) :
    (deduct_daily_credit s today).2.tenant.last_credit_deducted
        = s.tenant.last_credit_deducted ∨
    ((deduct_daily_credit s today).2.tenant.last_credit_deducted
        = some today ∧
      alreadyDeductedToday s.tenant.last_credit_deducted today = false) := by
  by_cases h1 : alreadyDeductedToday s.tenant.last_credit_deducted today
      = true
  · left
    rw [deduct_already s today h1]
  · have h1f : alreadyDeductedToday s.tenant.last_credit_deducted today
        = false := by simpa using h1
    by_cases h2 : s.tenant.credits > 0
    · right
      refine ⟨?_, h1f⟩
      rw [deduct_go s today h1f h2]
      exact (criticalSection_deduct s _ today h1f h2
        (days_pos s.tenant.last_credit_deducted today h1f)).2.2
    · left
      rw [deduct_eq, preLockPhase_nocredits s.tenant today h2]

lemma applyOp_last_mono (s : DBState) (op : Op) (D : Int)
    (h : s.tenant.last_credit_deducted = some D) :
    ∃ E, (applyOp s op).tenant.last_credit_deducted = some E ∧ D ≤ E := by
  cases op with
  | deduct today =>
      rcases deduct_last_cases s today with he | ⟨he, hf⟩
      · exact ⟨D, by rw [show (applyOp s (Op.deduct today)).tenant
            = (deduct_daily_credit s today).2.tenant from rfl, he, h],
          le_refl D⟩
      · refine ⟨today, he, ?_⟩
        rw [h] at hf
        simp only [alreadyDeductedToday, decide_eq_false_iff_not] at hf
        omega
  | addCredits amount =>
      exact ⟨D, by rw [show (applyOp s (Op.addCredits amount)).tenant
          = (add_credits s amount).2.tenant from rfl,
          add_credits_last_unchanged, h], le_refl D⟩

lemma applyOps_last_mono : ∀ (ops : List Op) (s : DBState) (D : Int),
    s.tenant.last_credit_deducted = some D →
    ∃ E, (applyOps s ops).tenant.last_credit_deducted = some E ∧ D ≤ E := by
  intro ops
  induction ops with
  | nil => intro s D h; exact ⟨D, h, le_refl D⟩
  | cons op rest ih =>
      intro s D h
      obtain ⟨E, hE, hDE⟩ := applyOp_last_mono s op D h
      obtain ⟨F, hF, hEF⟩ := ih (applyOp s op) E hE
      exact ⟨F, hF, le_trans hDE hEF⟩

/-! ### The claims -/

/-- C1: for a tenant with `credits = c ≥ 1`: when `last_credit_deducted =
some D` with `today = D + n`, `n ≥ 1`, `deduct_daily_credit` removes
exactly `min n c` credits, stamps `last_credit_deducted = today` and
returns true; when `last_credit_deducted` is none it removes exactly 1
credit, stamps today and returns true. -/
theorem C1_deduct_catchup (s : DBState) (today : Int)
    (hc : 1 ≤ s.tenant.credits) :
    (∀ D n, s.tenant.last_credit_deducted = some D → today = D + n → 1 ≤ n →
      (deduct_daily_credit s today).1 = true ∧
      (deduct_daily_credit s today).2.tenant.credits
        = s.tenant.credits - min n s.tenant.credits ∧
      (deduct_daily_credit s today).2.tenant.last_credit_deducted
        = some today) ∧
    (s.tenant.last_credit_deducted = none →
      (deduct_daily_credit s today).1 = true ∧
      (deduct_daily_credit s today).2.tenant.credits
        = s.tenant.credits - 1 ∧
      (deduct_daily_credit s today).2.tenant.last_credit_deducted
        = some today) := by
  constructor
  · intro D n hD htoday hn
    have h1f : alreadyDeductedToday s.tenant.last_credit_deducted today
        = false := by
      rw [hD]
      simp only [alreadyDeductedToday, decide_eq_false_iff_not]
      omega
    have h2 : s.tenant.credits > 0 := by omega
    have hdays : days_to_deduct s.tenant.last_credit_deducted today = n := by
      rw [hD]
      simp only [days_to_deduct]
      omega
    have hcs := criticalSection_deduct s
      (days_to_deduct s.tenant.last_credit_deducted today) today h1f h2
      (by rw [hdays]; omega)
    rw [hdays] at hcs
    rw [deduct_eq, preLockPhase_go s.tenant today h1f h2, hdays]
    exact hcs
  · intro hD
    have h1f : alreadyDeductedToday s.tenant.last_credit_deducted today
        = false := by
      rw [hD]
      rfl
    have h2 : s.tenant.credits > 0 := by omega
    have hdays : days_to_deduct s.tenant.last_credit_deducted today = 1 := by
      simp [hD, days_to_deduct]
    have hcs := criticalSection_deduct s
      (days_to_deduct s.tenant.last_credit_deducted today) today h1f h2
      (by rw [hdays]; omega)
    rw [hdays] at hcs
    rw [deduct_eq, preLockPhase_go s.tenant today h1f h2, hdays]
    rw [min_eq_left hc] at hcs
    exact hcs

/-- C2: two `deduct_daily_credit` calls with the same IST date yield true
at most once: the second call always returns false and leaves the database
state exactly as the first call left it. -/
theorem C2_second_call_noop (s : DBState) (today : Int) :
    (deduct_daily_credit (deduct_daily_credit s today).2 today).1 = false ∧
    (deduct_daily_credit (deduct_daily_credit s today).2 today).2
      = (deduct_daily_credit s today).2 := by
  rcases deduct_cases s today with ⟨heq, _⟩ | ⟨_, hlast⟩
  · rw [heq]
    rw [heq]
    exact ⟨rfl, rfl⟩
  · have : alreadyDeductedToday
        ((deduct_daily_credit s today).2.tenant.last_credit_deducted)
        today = true := by
      rw [hlast]
      simp [alreadyDeductedToday]
    rw [deduct_already _ _ this]
    exact ⟨rfl, rfl⟩

/-- C10: whenever `deduct_daily_credit` returns false the persisted ledger
is untouched, on every early-exit path: the pre-lock exits and the in-lock
re-check (a `criticalSection` that returns false) all leave the state
exactly as it was. -/
theorem C10_false_is_noop (s : DBState) (today : Int) :
    ((deduct_daily_credit s today).1 = false →
      (deduct_daily_credit s today).2 = s) ∧
    (∀ days, (criticalSection s days today).1 = false →
      (criticalSection s days today).2 = s) := by
  exact ⟨deduct_false_noop s today,
    fun days h => criticalSection_false_eq s days today h⟩

/-- C10 witness: at a concrete state where the call returns false (already
deducted today), the state is returned unchanged. -/
theorem C10_false_is_noop_witness :
    (deduct_daily_credit ⟨⟨4, true, some 10⟩, [true]⟩ 10).2
      = ⟨⟨4, true, some 10⟩, [true]⟩ ∧
    (criticalSection ⟨⟨4, true, some 10⟩, [true]⟩ 1 10).2
      = ⟨⟨4, true, some 10⟩, [true]⟩ := by
  refine ⟨(C10_false_is_noop ⟨⟨4, true, some 10⟩, [true]⟩ 10).1 (by decide),
    (C10_false_is_noop ⟨⟨4, true, some 10⟩, [true]⟩ 10).2 1 (by decide)⟩

/-- C1 witness: credits 5, last deducted day 7, today 10 (n = 3): removes
min 3 5 = 3; and credits 5 with no prior deduction removes 1. -/
theorem C1_deduct_catchup_witness :
    ((deduct_daily_credit ⟨⟨5, true, some 7⟩, [true]⟩ 10).1 = true ∧
     (deduct_daily_credit ⟨⟨5, true, some 7⟩, [true]⟩ 10).2.tenant.credits
       = 5 - min 3 5 ∧
     (deduct_daily_credit
        ⟨⟨5, true, some 7⟩, [true]⟩ 10).2.tenant.last_credit_deducted
       = some 10) ∧
    ((deduct_daily_credit ⟨⟨5, true, none⟩, [true]⟩ 10).1 = true ∧
     (deduct_daily_credit ⟨⟨5, true, none⟩, [true]⟩ 10).2.tenant.credits
       = 5 - 1 ∧
     (deduct_daily_credit
        ⟨⟨5, true, none⟩, [true]⟩ 10).2.tenant.last_credit_deducted
       = some 10) := by
  refine ⟨(C1_deduct_catchup ⟨⟨5, true, some 7⟩, [true]⟩ 10 (by decide)).1
      7 3 rfl (by decide) (by decide),
    (C1_deduct_catchup ⟨⟨5, true, none⟩, [true]⟩ 10 (by decide)).2 rfl⟩

/-- C3: starting from a ledger with non-negative credits, credits stay
non-negative across every finite sequence of deduct/add_credits calls, and
a single deduct removes at most the credits available. -/
theorem C3_credits_nonneg (s : DBState) (ops : List Op)
    (h : 0 ≤ s.tenant.credits) :
    0 ≤ (applyOps s ops).tenant.credits ∧
    ∀ today, s.tenant.credits
        - (deduct_daily_credit s today).2.tenant.credits
      ≤ s.tenant.credits := by
  refine ⟨applyOps_credits_nonneg ops s h, fun today => ?_⟩
  have := applyOp_credits_nonneg s (Op.deduct today) h
  simp only [applyOp] at this
  omega

/-- C3 witness: from credits 3, the sequence deduct day 5, add 2, deduct
day 9 keeps credits non-negative, and one deduct removes at most 3. -/
theorem C3_credits_nonneg_witness :
    0 ≤ (applyOps ⟨⟨3, true, none⟩, [true]⟩
        [Op.deduct 5, Op.addCredits 2, Op.deduct 9]).tenant.credits ∧
    (3 : Int) - (deduct_daily_credit ⟨⟨3, true, none⟩, [true]⟩ 5).2.tenant.credits
      ≤ 3 := by
  exact ⟨(C3_credits_nonneg ⟨⟨3, true, none⟩, [true]⟩
      [Op.deduct 5, Op.addCredits 2, Op.deduct 9] (by decide)).1,
    (C3_credits_nonneg ⟨⟨3, true, none⟩, [true]⟩
      [Op.deduct 5, Op.addCredits 2, Op.deduct 9] (by decide)).2 5⟩

/-- C4: a deduct call that takes credits from positive to 0 deactivates the
tenant and marks every one of its users inactive in the same operation. -/
theorem C4_deactivation (s : DBState) (today : Int)
    (hpos : 0 < s.tenant.credits)
    (hzero : (deduct_daily_credit s today).2.tenant.credits = 0) :
    (deduct_daily_credit s today).2.tenant.is_active = false ∧
    ∀ u ∈ (deduct_daily_credit s today).2.users, u = false := by
  by_cases h1 : alreadyDeductedToday s.tenant.last_credit_deducted today
      = true
  · rw [deduct_already s today h1] at hzero
    exact absurd (show s.tenant.credits = 0 from hzero) (by omega)
  · have h1f : alreadyDeductedToday s.tenant.last_credit_deducted today
        = false := by simpa using h1
    have hd := days_pos s.tenant.last_credit_deducted today h1f
    by_cases hz : s.tenant.credits
        - min (days_to_deduct s.tenant.last_credit_deducted today)
            s.tenant.credits = 0
    · rw [deduct_go s today h1f hpos,
        criticalSection_deduct_zero s _ today h1f hpos hd hz]
      exact ⟨rfl, by simp⟩
    · rw [deduct_go s today h1f hpos,
        criticalSection_deduct_pos s _ today h1f hpos hd hz] at hzero
      exact absurd hzero hz

/-- C4 witness: credits 2, 9 missed days: the deduct zeroes the credits,
deactivates the tenant and turns every user flag off. -/
theorem C4_deactivation_witness :
    (deduct_daily_credit ⟨⟨2, true, some 1⟩, [true, true]⟩
        10).2.tenant.is_active = false ∧
    ∀ u ∈ (deduct_daily_credit ⟨⟨2, true, some 1⟩, [true, true]⟩ 10).2.users,
      u = false := by
  exact C4_deactivation ⟨⟨2, true, some 1⟩, [true, true]⟩ 10 (by decide)
    (by decide)

/-- C5: add_credits with a positive amount on an inactive tenant whose
resulting credits are positive reactivates the tenant and every one of its
users; add_credits on an already-active tenant never changes is_active. -/
theorem C5_reactivation (s : DBState) (amount : Int) :
    (0 < amount → s.tenant.is_active = false →
      0 < (add_credits s amount).2.tenant.credits →
      (add_credits s amount).2.tenant.is_active = true ∧
      ∀ u ∈ (add_credits s amount).2.users, u = true) ∧
    (s.tenant.is_active = true →
      (add_credits s amount).2.tenant.is_active = true) := by
  simp only [add_credits]
  split_ifs with h1 h2
  · exact ⟨fun ha _ _ => absurd ha (by omega), fun h => h⟩
  · exact ⟨fun _ _ _ => ⟨rfl, by simp⟩, fun _ => rfl⟩
  · refine ⟨fun ha hina hcred => ?_, fun h => h⟩
    exact absurd ⟨by simp [hina], hcred⟩ h2

/-- C5 witness: adding 5 credits to an inactive tenant with 0 credits
reactivates it and its users; adding 5 to an active tenant leaves it
active. -/
theorem C5_reactivation_witness :
    ((add_credits ⟨⟨0, false, some 3⟩, [false, false]⟩
        5).2.tenant.is_active = true ∧
      ∀ u ∈ (add_credits ⟨⟨0, false, some 3⟩, [false, false]⟩ 5).2.users,
        u = true) ∧
    (add_credits ⟨⟨7, true, none⟩, [true]⟩ 5).2.tenant.is_active = true := by
  exact ⟨(C5_reactivation ⟨⟨0, false, some 3⟩, [false, false]⟩ 5).1
      (by decide) rfl (by decide),
    (C5_reactivation ⟨⟨7, true, none⟩, [true]⟩ 5).2 rfl⟩

/-- C7: last_credit_deducted, once set, never decreases: add_credits never
changes it, a deduct either leaves it alone or moves it to a strictly later
date, and across any sequence of operations it only grows. -/
theorem C7_last_monotone (s : DBState) :
    (∀ amount, (add_credits s amount).2.tenant.last_credit_deducted
        = s.tenant.last_credit_deducted) ∧
    (∀ today D, s.tenant.last_credit_deducted = some D →
      (deduct_daily_credit s today).2.tenant.last_credit_deducted
          = some D ∨
      ((deduct_daily_credit s today).2.tenant.last_credit_deducted
          = some today ∧ D < today)) ∧
    (∀ ops D, s.tenant.last_credit_deducted = some D →
      ∃ E, (applyOps s ops).tenant.last_credit_deducted = some E ∧
        D ≤ E) := by
  refine ⟨fun amount => add_credits_last_unchanged s amount,
    fun today D hD => ?_,
    fun ops D hD => applyOps_last_mono ops s D hD⟩
  rcases deduct_last_cases s today with he | ⟨he, hf⟩
  · left
    rw [he, hD]
  · right
    refine ⟨he, ?_⟩
    rw [hD] at hf
    simp only [alreadyDeductedToday, decide_eq_false_iff_not] at hf
    omega

/-- C7 witness: for a ledger last deducted on day 4, a deduct on day 6
moves the stamp strictly forward, add_credits keeps it, and a sequence of
operations never moves it below 4. -/
theorem C7_last_monotone_witness :
    (add_credits ⟨⟨3, true, some 4⟩, [true]⟩
        2).2.tenant.last_credit_deducted = some 4 ∧
    ((deduct_daily_credit ⟨⟨3, true, some 4⟩, [true]⟩
          6).2.tenant.last_credit_deducted = some 4 ∨
      ((deduct_daily_credit ⟨⟨3, true, some 4⟩, [true]⟩
          6).2.tenant.last_credit_deducted = some 6 ∧ (4 : Int) < 6)) ∧
    ∃ E, (applyOps ⟨⟨3, true, some 4⟩, [true]⟩
        [Op.deduct 6, Op.addCredits 1]).tenant.last_credit_deducted
      = some E ∧ (4 : Int) ≤ E := by
  exact ⟨(C7_last_monotone ⟨⟨3, true, some 4⟩, [true]⟩).1 2,
    (C7_last_monotone ⟨⟨3, true, some 4⟩, [true]⟩).2.1 6 4 rfl,
    (C7_last_monotone ⟨⟨3, true, some 4⟩, [true]⟩).2.2
      [Op.deduct 6, Op.addCredits 1] 4 rfl⟩

lemma deduct_with_snapshot_none (snap db : DBState) (today : Int)
    (h : preLockPhase snap.tenant today = none) :
    deduct_with_snapshot snap db today = (false, db) := by
  unfold deduct_with_snapshot
  rw [h]

lemma deduct_with_snapshot_some (snap db : DBState) (today d : Int)
    (h : preLockPhase snap.tenant today = some d) :
    deduct_with_snapshot snap db today = criticalSection db d today := by
  unfold deduct_with_snapshot
  rw [h]

lemma twoConcurrentDeducts_eq (s0 : DBState) (today : Int) (staleB : Bool) :
    twoConcurrentDeducts s0 today staleB
      = ((deduct_daily_credit s0 today).1,
         (deduct_with_snapshot
            (if staleB then s0 else (deduct_daily_credit s0 today).2)
            (deduct_daily_credit s0 today).2 today).1,
         (deduct_with_snapshot
            (if staleB then s0 else (deduct_daily_credit s0 today).2)
            (deduct_daily_credit s0 today).2 today).2) := rfl

/-- C6: two concurrent deduct calls for the same tenant on the same date,
for a tenant that is due (positive credits, not yet settled today):
the winner returns true, the loser observes the winner's committed state
and returns false, and the final credits reflect exactly one deduction. -/
theorem C6_race (s0 : DBState) (today : Int) (staleB : Bool)
    (hc : 1 ≤ s0.tenant.credits)
    (hdue : alreadyDeductedToday s0.tenant.last_credit_deducted today
      = false) :
    (twoConcurrentDeducts s0 today staleB).1 = true ∧
    (twoConcurrentDeducts s0 today staleB).2.1 = false ∧
    (twoConcurrentDeducts s0 today staleB).2.2
      = (deduct_daily_credit s0 today).2 ∧
    (twoConcurrentDeducts s0 today staleB).2.2.tenant.credits
      = s0.tenant.credits
        - min (days_to_deduct s0.tenant.last_credit_deducted today)
            s0.tenant.credits := by
  have h2 : s0.tenant.credits > 0 := by omega
  have hdays := days_pos s0.tenant.last_credit_deducted today hdue
  have hgo := deduct_go s0 today hdue h2
  have hcs := criticalSection_deduct s0
    (days_to_deduct s0.tenant.last_credit_deducted today) today hdue h2 hdays
  have hs1last : (deduct_daily_credit s0 today).2.tenant.last_credit_deducted
      = some today := by
    rw [hgo]
    exact hcs.2.2
  have halready : alreadyDeductedToday
      (deduct_daily_credit s0 today).2.tenant.last_credit_deducted today
      = true := by
    rw [hs1last]
    simp [alreadyDeductedToday]
  have hb : deduct_with_snapshot
      (if staleB then s0 else (deduct_daily_credit s0 today).2)
      (deduct_daily_credit s0 today).2 today
      = (false, (deduct_daily_credit s0 today).2) := by
    cases staleB with
    | false =>
        simp only [Bool.false_eq_true, if_false]
        exact deduct_with_snapshot_none _ _ today
          (preLockPhase_already _ today halready)
    | true =>
        simp only [if_true]
        rw [deduct_with_snapshot_some _ _ today
          (days_to_deduct s0.tenant.last_credit_deducted today)
          (preLockPhase_go s0.tenant today hdue h2)]
        exact criticalSection_already _ _ today halready
  rw [twoConcurrentDeducts_eq, hb]
  refine ⟨?_, rfl, rfl, ?_⟩
  · rw [hgo]
    exact hcs.1
  · rw [hgo]
    exact hcs.2.1

/-- C6 witness: credits 5 last deducted day 7, raced on day 10 with either
snapshot choice for the loser: one true, one false, 3 credits removed. -/
theorem C6_race_witness :
    ((twoConcurrentDeducts ⟨⟨5, true, some 7⟩, [true]⟩ 10 true).1 = true ∧
     (twoConcurrentDeducts ⟨⟨5, true, some 7⟩, [true]⟩ 10 true).2.1
        = false ∧
     (twoConcurrentDeducts ⟨⟨5, true, some 7⟩, [true]⟩ 10 true).2.2
        = (deduct_daily_credit ⟨⟨5, true, some 7⟩, [true]⟩ 10).2 ∧
     (twoConcurrentDeducts
        ⟨⟨5, true, some 7⟩, [true]⟩ 10 true).2.2.tenant.credits
        = 5 - min (days_to_deduct (some 7) 10) 5) ∧
    (twoConcurrentDeducts ⟨⟨5, true, some 7⟩, [true]⟩ 10 false).2.1
      = false := by
  exact ⟨C6_race ⟨⟨5, true, some 7⟩, [true]⟩ 10 true (by decide) (by decide),
    (C6_race ⟨⟨5, true, some 7⟩, [true]⟩ 10 false (by decide)
      (by decide)).2.1⟩

/-- C8: on a tick whose IST time of day lies in the [00:00:00, 00:05:00]
window, with the midnight pass not yet run today and the hourly check also
due, only the midnight pass executes: the tick's action is `midnight` and
the hourly state is untouched (so the hourly pass did not also run). -/
theorem C8_midnight_priority (st : SchedState) (tod date now : Int)
    (hlo : 0 ≤ tod) (hhi : tod ≤ 300)
    (hnot : ∀ d, st.last_midnight_check = some d → d < date)
    (_hhourly : should_run_hourly_check st now = true) :
    (schedulerTick st tod date now).1 = TickAction.midnight ∧
    (schedulerTick st tod date now).2.last_hourly_check
      = st.last_hourly_check ∧
    (schedulerTick st tod date now).2.last_midnight_check = some date := by
  have hm : should_run_midnight_check st tod date = true := by
    cases hc : st.last_midnight_check with
    | none => simp [should_run_midnight_check, hc, hlo, hhi]
    | some d =>
        have hd := hnot d hc
        simp only [should_run_midnight_check, hc, Bool.and_eq_true,
          decide_eq_true_eq, Bool.not_eq_true', decide_eq_false_iff_not]
        exact ⟨⟨hlo, hhi⟩, by omega⟩
  unfold schedulerTick
  rw [if_pos hm]
  exact ⟨rfl, rfl, rfl⟩

/-- C8 witness: tick at IST 00:02:00 (120 s), midnight last run on day 9,
date now 10, hourly last run at instant 0 and now 999999 (due): the
midnight pass runs and the hourly state is untouched. -/
theorem C8_midnight_priority_witness :
    (schedulerTick ⟨some 0, some 9⟩ 120 10 999999).1
        = TickAction.midnight ∧
    (schedulerTick ⟨some 0, some 9⟩ 120 10 999999).2.last_hourly_check
        = some 0 ∧
    (schedulerTick ⟨some 0, some 9⟩ 120 10 999999).2.last_midnight_check
        = some 10 := by
  exact C8_midnight_priority ⟨some 0, some 9⟩ 120 10 999999 (by decide)
    (by decide) (fun d h => by cases h; decide) (by decide)

/-- C9 counterexample: an authenticated, tenant-bearing request on a
non-exempt path for a tenant with 0 credits has `credits ≤ 5`, yet the
enforcement pass logs no low-credit warning (the code also requires
`credits > 0`), refuting the claim that a warning is logged whenever
`credits ≤ 5`. -/
theorem C9_counterexample :
    (0 : Int) ≤ 5 ∧
    EXEMPT_PATHS.any
        (fun e => str_startswith "/api/reports/".data e.data) = false ∧
    enforcement_process_request ⟨"/api/reports/".data, true, true⟩
        ⟨⟨0, false, none⟩, []⟩
      = (false, ⟨⟨0, false, none⟩, []⟩) := by
  decide

/-- C9 (amended): for every non-exempt authenticated request with a
tenant, the enforcement pass logs a low-credit warning exactly when
`0 < credits ≤ 5`, and it never mutates the state. -/
theorem C9_low_credit_warning (req : Request) (s : DBState)
    (hex : EXEMPT_PATHS.any (fun e => str_startswith req.path e.data)
      = false)
    (hauth : req.is_authenticated = true)
    (ht : req.has_tenant = true) :
    ((enforcement_process_request req s).1 = true ↔
      (0 < s.tenant.credits ∧ s.tenant.credits ≤ 5)) ∧
    (enforcement_process_request req s).2 = s := by
  unfold enforcement_process_request
  rw [if_neg (by simp [hex]), if_neg (by simp [hauth]),
    if_neg (by simp [ht])]
  constructor
  · simp only [Bool.and_eq_true, decide_eq_true_eq]
    constructor
    · rintro ⟨h5, h0⟩
      exact ⟨h0, h5⟩
    · rintro ⟨h0, h5⟩
      exact ⟨h5, h0⟩
  · rfl

/-- C9 witness: a request on "/api/reports/" for a tenant with 3 credits:
the warning fires (0 < 3 ≤ 5) and the state is unchanged. -/
theorem C9_low_credit_warning_witness :
    ((enforcement_process_request ⟨"/api/reports/".data, true, true⟩
        ⟨⟨3, true, none⟩, []⟩).1 = true ↔
      ((0 : Int) < 3 ∧ (3 : Int) ≤ 5)) ∧
    (enforcement_process_request ⟨"/api/reports/".data, true, true⟩
        ⟨⟨3, true, none⟩, []⟩).2 = ⟨⟨3, true, none⟩, []⟩ := by
  exact C9_low_credit_warning ⟨"/api/reports/".data, true, true⟩
    ⟨⟨3, true, none⟩, []⟩ (by decide) rfl rfl

end HRMS
